import Mathlib

/-!
Shallow embedding of `youtubeChannelVideosFinder.py` (gaschu95/youtubeChannelVideosFinder).

Timestamps and durations are modelled as integers counting days on the proleptic
Gregorian calendar (Python `datetime` subtraction with `timedelta(days = n)` is exact
day arithmetic, and all dates in the program are parsed at midnight).  The network is
modelled by a script of responses: each element of a script is the response the search
API returns to the next page request of one window, and each window of the collector
consumes the next script from a list of scripts, in order.  Running past the end of a
script models a transport failure (no response).
-/

set_option linter.unusedVariables false

namespace YCVF

/-- One response of the search API to a single page request, as consumed by
`_get_channel_videos_published_in_interval`: either a transport/parse failure
(`requests.get` or `json.loads` or the `['items']` access raising), or a parsed page
carrying the `id.videoId` of each item of `items` and the optional `nextPageToken`. -/
inductive ApiResponse where
  | failure : ApiResponse
  | page : List String → Option String → ApiResponse
deriving DecidableEq

/-- True exactly on a page response that carries a continuation token
(`nextPageToken` present): the only kind of response after which the pagination
loop issues another request. -/
def ApiResponse.isCont : ApiResponse → Bool
  | .page _ (some _) => true
  | _ => false

/-- The `items` ids carried by a response (a failure carries none). -/
def ApiResponse.pageItems : ApiResponse → List String
  | .failure => []
  | .page items _ => items

/-- Model of `_get_channel_videos_published_in_interval` (lines 116-157 of the source):
the `while not foundAll` pagination loop of one window.  Each loop iteration issues one
request and consumes the next scripted response.  Appending to `videoList` inside the
loop is modelled by concatenation.  Returns the accumulated video ids together with
the number of requests issued.  An empty (exhausted) script stands for a transport
failure, caught by the outer `except`, which stops the loop keeping the accumulator. -/
def get_channel_videos_published_in_interval : List ApiResponse → List String × Nat
  | [] => ([], 1)
  | .failure :: _ => ([], 1)
  | .page items none :: _ => (items, 1)
  | .page items (some _) :: rest =>
    let r := get_channel_videos_published_in_interval rest
    (items ++ r.1, r.2 + 1)

/-- Length of the longest leading run of token-carrying pages of a script: the number
of responses after which the pagination loop keeps going. -/
def contPrefixLen : List ApiResponse → Nat
  | ApiResponse.page _ (some _) :: rest => contPrefixLen rest + 1
  | _ => 0

/-- Concatenation of the items of every response of a script, in order. -/
def itemsJoin (l : List ApiResponse) : List String :=
  (l.map ApiResponse.pageItems).flatten

/-- One window query of the collector: the channel and the RFC3339-converted bounds
`latererer` (as `publishedBefore`) and `earliererer` (as `publishedAfter`) it passes to
`_get_channel_videos_published_in_interval`. -/
structure WindowQuery where
  channelId : String
  publishedBefore : Int
  publishedAfter : Int
deriving DecidableEq

/-- The sequence of window bounds produced by the partitioning loop of
`get_channel_videos` (lines 181-213 of the source), from most recent to least recent.
Entering the loop, `earliererer = latererer - timeInterval`; the loop clamps it to
`earliest` when it falls below (`done` on the clamped, last round-trip), and otherwise
continues from `latererer = earliererer`, `earliererer = earliererer - timeInterval`.
For `timeInterval <= 0` the Python loop never reaches `earliest` and runs forever; the
model returns `[]` in that case (no claim concerns a non-positive interval). -/
def windows (channelId : String) (earliest timeInterval : Int) (latererer : Int) :
    List WindowQuery :=
  if timeInterval ≤ 0 then []
  else if latererer - timeInterval ≤ earliest then [⟨channelId, latererer, earliest⟩]
  else ⟨channelId, latererer, latererer - timeInterval⟩ ::
    windows channelId earliest timeInterval (latererer - timeInterval)
termination_by (latererer - earliest).toNat
decreasing_by
  simp_wf
  omega

/-- Model of the body of the `while not done` loop of `get_channel_videos`
(lines 181-213): processes each window in turn, fetching it through
`_get_channel_videos_published_in_interval` on the next script of `scripts`, and
returns the concatenated video list, the list of window queries issued (in order), and
the total number of page requests.  Mirrors `windows` exactly on the bounds; like it,
returns immediately on a non-positive interval (where the Python loop diverges). -/
def get_channel_videos_loop (channelId : String) (earliest timeInterval : Int)
    (latererer : Int) (scripts : List (List ApiResponse)) :
    List String × List WindowQuery × Nat :=
  if timeInterval ≤ 0 then ([], [], 0)
  else if latererer - timeInterval ≤ earliest then
    ((get_channel_videos_published_in_interval (scripts.headD [])).1,
      [⟨channelId, latererer, earliest⟩],
      (get_channel_videos_published_in_interval (scripts.headD [])).2)
  else
    ((get_channel_videos_published_in_interval (scripts.headD [])).1 ++
        (get_channel_videos_loop channelId earliest timeInterval
          (latererer - timeInterval) scripts.tail).1,
      ⟨channelId, latererer, latererer - timeInterval⟩ ::
        (get_channel_videos_loop channelId earliest timeInterval
          (latererer - timeInterval) scripts.tail).2.1,
      (get_channel_videos_published_in_interval (scripts.headD [])).2 +
        (get_channel_videos_loop channelId earliest timeInterval
          (latererer - timeInterval) scripts.tail).2.2)
termination_by (latererer - earliest).toNat
decreasing_by
  all_goals simp_wf
  all_goals omega

/-- The observable outcome of one call of `get_channel_videos`: the raised error
message if any (`InvalidRangeError`), the returned video list, the window queries
issued and the total number of page requests.  When `error` is `some`, the call raised
before doing anything, so the other fields are empty/zero. -/
structure CollectOutcome where
  error : Option String
  videos : List String
  queries : List WindowQuery
  requests : Nat
deriving DecidableEq

/-- Model of `get_channel_videos` (lines 159-215 of the source) after its arguments
have been converted to datetimes/timedeltas: checks `latest < earliest` (raising the
`InvalidRangeError` message before any request), then runs the window loop starting
from `latererer = latest`. -/
def get_channel_videos (apiKey channelId : String) (earliest latest timeInterval : Int)
    (scripts : List (List ApiResponse)) : CollectOutcome :=
  if latest < earliest then
    { error := some "The date to start from cannot be before the date to go back to!"
      videos := [], queries := [], requests := 0 }
  else
    let r := get_channel_videos_loop channelId earliest timeInterval latest scripts
    { error := none, videos := r.1, queries := r.2.1, requests := r.2.2 }

/-- Day number of the proleptic Gregorian calendar date `y-m-d` (years from 0000, so
every argument of interest is non-negative).  This is the standard civil-date to
day-count conversion; only differences of day numbers matter, matching Python
`datetime` subtraction of midnight datetimes by whole-day `timedelta`s. -/
def daysFromCivil (y m d : Nat) : Int :=
  let yAdj := if m ≤ 2 then y - 1 else y
  let era := yAdj / 400
  let yoe := yAdj - era * 400
  let mp := if m ≤ 2 then m + 9 else m - 3
  let doy := (153 * mp + 2) / 5 + d - 1
  let doe := yoe * 365 + yoe / 4 - yoe / 100 + doy
  ((era * 146097 + doe : Nat) : Int)

/-- Model of `defaultInterval = datetime.timedelta(weeks=52)` (line 25), in days. -/
def defaultInterval : Int := 52 * 7

/-- Model of `defaultTimeToGoBackTo = datetime.datetime.strptime('2005-02-14','%Y-%m-%d')`
(line 26): the fixed historical floor date, as a day number. -/
def defaultTimeToGoBackTo : Int := daysFromCivil 2005 2 14

/-- A date argument of `get_channel_videos` before conversion (lines 164-165, 170-171):
absent (`None`), a `'YYYY-MM-DD'` string parsed by `strptime`, or already a datetime. -/
inductive RawDate where
  | none : RawDate
  | str : Nat → Nat → Nat → RawDate
  | dt : Int → RawDate
deriving DecidableEq

/-- An interval argument of `get_channel_videos` before conversion (lines 166-167, 172):
absent (`None`), a raw-count string fed to `int(...)`, a raw integer count, or already
a `timedelta` (in days). -/
inductive RawInterval where
  | none : RawInterval
  | str : String → RawInterval
  | int : Int → RawInterval
  | delta : Int → RawInterval
deriving DecidableEq

/-- Conversion of a date argument: a string is parsed as a calendar date, an absent
argument takes the given default (`datetime.datetime.now()` for `latest`,
`defaultTimeToGoBackTo` for `earliest`). -/
def resolveDate (raw : RawDate) (dflt : Int) : Int :=
  match raw with
  | .none => dflt
  | .str y m d => daysFromCivil y m d
  | .dt t => t

/-- Conversion of the interval argument: a string or integer raw count becomes
`timedelta(days = count)`, an absent argument becomes `defaultInterval`.  A string
that `int(...)` rejects raises `ValueError`, modelled by `Option.none`. -/
def resolveInterval : RawInterval → Option Int
  | .none => some defaultInterval
  | .str s => s.toInt?
  | .int n => some n
  | .delta d => some d

/-- Model of `get_channel_videos` on its raw arguments (lines 159-172 before the range
check): converts strings, fills in defaults (`now` is the current timestamp in days),
then runs the converted collector.  `Option.none` is the `ValueError` of `int(...)`. -/
def get_channel_videos_raw (apiKey channelId : String) (now : Int)
    (earliest latest : RawDate) (timeInterval : RawInterval)
    (scripts : List (List ApiResponse)) : Option CollectOutcome :=
  (resolveInterval timeInterval).map fun i =>
    get_channel_videos apiKey channelId (resolveDate earliest defaultTimeToGoBackTo)
      (resolveDate latest now) i scripts

/-- The parsed JSON of one channel-lookup response, as accessed by `get_channel_id`
(lines 80-114).  `parseOk = false` models any transport failure, JSON decode failure
or missing `pageInfo` key (all raise inside the `try`).  `totalResults` is
`pageInfo.get('totalResults')` (`Option.none` models a missing field, whose `None > 0`
comparison raises).  `items` holds each item's optional `id` field; the `items` key is
only accessed when `totalResults > 0`. -/
structure LookupResponse where
  parseOk : Bool
  totalResults : Option Int
  items : List (Option String)
deriving DecidableEq

/-- Which exception the `try` block of `get_channel_id` raised: the explicit
`'The channel id could not be retrieved...'` raise of the zero-match branch, or any
transport/parse/shape failure. -/
inductive LookupError where
  | notFound : LookupError
  | other : LookupError
deriving DecidableEq

/-- Model of the `try` block of `get_channel_id` (lines 86-110): on success returns
the extracted `items[0].get('id')` (possibly `None`) together with whether the
ambiguous-resolution diagnostic of line 110 is emitted (`totalResults > 1`); on any
raise returns the exception kind. -/
def get_channel_id_body (r : LookupResponse) : Except LookupError (Option String × Bool) :=
  if r.parseOk = false then .error .other
  else
    match r.totalResults with
    | Option.none => .error .other
    | some t =>
      if t > 0 then
        match r.items.head? with
        | Option.none => .error .other
        | some idOpt => .ok (idOpt, decide (t > 1))
      else .error .notFound

/-- The value `get_channel_id` returns to `main`: the initial sentinel `-1` when the
`try` block raised (the `except` catches everything and returns `channelId`
unchanged), or the extracted id field of the first item. -/
inductive ChannelIdResult where
  | sentinel : ChannelIdResult
  | found : Option String → ChannelIdResult
deriving DecidableEq

/-- Model of `get_channel_id` (lines 80-114): runs the `try` body and converts any
exception into the sentinel return, also reporting whether the ambiguity diagnostic
was emitted. -/
def get_channel_id (r : LookupResponse) : ChannelIdResult × Bool :=
  match get_channel_id_body r with
  | .error _ => (.sentinel, false)
  | .ok (idOpt, diag) => (.found idOpt, diag)

/-- The observable outcome of `main`: the process exit code, whether
`get_channel_videos` was invoked, and the video ids printed to standard output. -/
structure MainOutcome where
  exitCode : Nat
  collectionInvoked : Bool
  printed : List String
deriving DecidableEq

/-- Model of `main` (lines 221-239), after argument reading, on already-converted
date/interval arguments: a sentinel channel id raises, is caught at the top level and
exits with code 2 before collection; otherwise collection runs, a raised
`InvalidRangeError` is caught at the top level (exit 2), and success prints the videos
and exits 0 (also when the list is empty: line 232). -/
def main (r : LookupResponse) (apiKey : String) (earliest latest timeInterval : Int)
    (scripts : List (List ApiResponse)) : MainOutcome :=
  match get_channel_id r with
  | (.sentinel, _) => { exitCode := 2, collectionInvoked := false, printed := [] }
  | (.found idOpt, _) =>
    let o := get_channel_videos apiKey (idOpt.getD "") earliest latest timeInterval
      scripts
    match o.error with
    | some _ => { exitCode := 2, collectionInvoked := true, printed := [] }
    | Option.none => { exitCode := 0, collectionInvoked := true, printed := o.videos }

/-! Step lemmas for the well-founded definitions. -/

theorem windows_low (cid : String) (e i u : Int) (hi : ¬ i ≤ 0) (h : u - i ≤ e) :
    windows cid e i u = [⟨cid, u, e⟩] := by
  rw [windows]; simp [hi, h]

theorem windows_high (cid : String) (e i u : Int) (hi : ¬ i ≤ 0) (h : ¬ u - i ≤ e) :
    windows cid e i u = ⟨cid, u, u - i⟩ :: windows cid e i (u - i) := by
  rw [windows]; simp [hi, h]

theorem loop_low (cid : String) (e i u : Int) (scripts : List (List ApiResponse))
    (hi : ¬ i ≤ 0) (h : u - i ≤ e) :
    get_channel_videos_loop cid e i u scripts =
      ((get_channel_videos_published_in_interval (scripts.headD [])).1,
        [⟨cid, u, e⟩],
        (get_channel_videos_published_in_interval (scripts.headD [])).2) := by
  rw [get_channel_videos_loop]; simp [hi, h]

theorem loop_high (cid : String) (e i u : Int) (scripts : List (List ApiResponse))
    (hi : ¬ i ≤ 0) (h : ¬ u - i ≤ e) :
    get_channel_videos_loop cid e i u scripts =
      ((get_channel_videos_published_in_interval (scripts.headD [])).1 ++
          (get_channel_videos_loop cid e i (u - i) scripts.tail).1,
        ⟨cid, u, u - i⟩ :: (get_channel_videos_loop cid e i (u - i) scripts.tail).2.1,
        (get_channel_videos_published_in_interval (scripts.headD [])).2 +
          (get_channel_videos_loop cid e i (u - i) scripts.tail).2.2) := by
  rw [get_channel_videos_loop]; simp [hi, h]

/-! Pagination lemmas. -/

/-- A response after which the loop continues is a page with a token. -/
theorem isCont_iff (r : ApiResponse) :
    r.isCont = true ↔ ∃ items t, r = .page items (some t) := by
  cases r with
  | failure => simp [ApiResponse.isCont]
  | page items tok => cases tok <;> simp [ApiResponse.isCont]

/-- The pagination loop issues exactly one request per response it consumes: one for
each leading token-carrying page, plus the final one (token-free page, failure, or
missing response). -/
theorem fetch_requests (script : List ApiResponse) :
    (get_channel_videos_published_in_interval script).2 = contPrefixLen script + 1 := by
  induction script with
  | nil => rfl
  | cons r rest ih =>
    cases r with
    | failure => rfl
    | page items tok =>
      cases tok with
      | none => rfl
      | some t =>
        simp [get_channel_videos_published_in_interval, contPrefixLen, ih]

/-- Paginating a script that is a run of token-carrying pages followed by a failure
returns exactly the items accumulated before the failure, having issued one request
per page plus the failing one. -/
theorem fetch_contRun_failure (pre rest : List ApiResponse)
    (h : ∀ r ∈ pre, r.isCont = true) :
    get_channel_videos_published_in_interval (pre ++ ApiResponse.failure :: rest) =
      (itemsJoin pre, pre.length + 1) := by
  induction pre with
  | nil => rfl
  | cons r pre ih =>
    obtain ⟨items, t, rfl⟩ := (isCont_iff r).mp (h r (by simp))
    have ih' := ih (fun r hr => h r (by simp [hr]))
    simp [get_channel_videos_published_in_interval, ih', itemsJoin,
      ApiResponse.pageItems]

/-- Paginating a run of token-carrying pages followed by a token-free page returns the
items of the whole run and stops, whatever follows the token-free page: the loop never
issues another request after a token-free response. -/
theorem fetch_contRun_done (pre rest : List ApiResponse) (items : List String)
    (h : ∀ r ∈ pre, r.isCont = true) :
    get_channel_videos_published_in_interval (pre ++ ApiResponse.page items none :: rest)
      = (itemsJoin pre ++ items, pre.length + 1) := by
  induction pre with
  | nil => simp [get_channel_videos_published_in_interval, itemsJoin]
  | cons r pre ih =>
    obtain ⟨its, t, rfl⟩ := (isCont_iff r).mp (h r (by simp))
    have ih' := ih (fun r hr => h r (by simp [hr]))
    simp [get_channel_videos_published_in_interval, ih', itemsJoin,
      ApiResponse.pageItems]

/-- If every token-carrying page of the script is full (50 items, as the API returns
when more results follow a `maxResults=50` request), the number of requests is bounded
by the number of results retrieved divided by the page size. -/
theorem fetch_requests_bounded (script : List ApiResponse)
    (h : ∀ r ∈ script, r.isCont = true → (r.pageItems).length = 50) :
    50 * (get_channel_videos_published_in_interval script).2 ≤
      (get_channel_videos_published_in_interval script).1.length + 50 := by
  induction script with
  | nil => simp [get_channel_videos_published_in_interval]
  | cons r rest ih =>
    cases r with
    | failure => simp [get_channel_videos_published_in_interval]
    | page items tok =>
      cases tok with
      | none => simp [get_channel_videos_published_in_interval]
      | some t =>
        have hfull : items.length = 50 := by
          have := h (.page items (some t)) (by simp)
          simpa [ApiResponse.isCont, ApiResponse.pageItems] using this
        have ih' := ih (fun r hr hc => h r (by simp [hr]) hc)
        simp only [get_channel_videos_published_in_interval, List.length_append]
        omega

/-! Structure of the window partition. -/

/-- For a positive interval the partitioning loop always queries at least one window. -/
theorem windows_ne_nil (cid : String) (e i u : Int) (hi : 0 < i) :
    windows cid e i u ≠ [] := by
  by_cases h : u - i ≤ e
  · rw [windows_low cid e i u (by omega) h]; simp
  · rw [windows_high cid e i u (by omega) h]; simp

/-- The first window's upper bound is the overall `latest` bound. -/
theorem windows_head_before (cid : String) (e i u : Int) (hi : 0 < i) :
    (windows cid e i u).head?.map (fun q => q.publishedBefore) = some u := by
  by_cases h : u - i ≤ e
  · rw [windows_low cid e i u (by omega) h]; rfl
  · rw [windows_high cid e i u (by omega) h]; rfl

/-- The last window's lower bound is clamped to exactly the overall `earliest` bound. -/
theorem windows_last_after (cid : String) (e i u : Int) (hi : 0 < i) :
    (windows cid e i u).getLast?.map (fun q => q.publishedAfter) = some e := by
  induction u using windows.induct cid e i with
  | case1 u h => omega
  | case2 u hneg h => rw [windows_low cid e i u hneg h]; rfl
  | case3 u hneg h ih =>
    rw [windows_high cid e i u hneg h]
    have hne := windows_ne_nil cid e i (u - i) hi
    rcases hw : windows cid e i (u - i) with _ | ⟨b, l⟩
    · exact absurd hw hne
    · rw [hw] at ih
      rw [List.getLast?_cons_cons]
      exact ih

/-- Adjacent windows share a boundary: each window's upper bound is the previous
window's lower bound. -/
theorem windows_chain (cid : String) (e i u : Int) :
    List.Chain' (fun a b => b.publishedBefore = a.publishedAfter)
      (windows cid e i u) := by
  induction u using windows.induct cid e i with
  | case1 u h => rw [windows]; simp [h]
  | case2 u hneg h => rw [windows_low cid e i u hneg h]; simp
  | case3 u hneg h ih =>
    rw [windows_high cid e i u hneg h]
    rw [List.chain'_cons']
    refine ⟨?_, ih⟩
    intro b hb
    have hh := windows_head_before cid e i (u - i) (by omega)
    rw [Option.mem_def] at hb
    rw [hb] at hh
    simpa using hh

/-- Every queried window lies inside `[earliest, latest]`, its bounds are ordered, and
it targets the resolved channel. -/
theorem windows_mem_bounds (cid : String) (e i u : Int) (hu : e ≤ u) :
    ∀ q ∈ windows cid e i u,
      e ≤ q.publishedAfter ∧ q.publishedAfter ≤ q.publishedBefore ∧
        q.publishedBefore ≤ u ∧ q.channelId = cid := by
  induction u using windows.induct cid e i with
  | case1 u h => rw [windows]; simp [h]
  | case2 u hneg h =>
    rw [windows_low cid e i u hneg h]
    intro q hq
    simp only [List.mem_singleton] at hq
    subst hq
    exact ⟨le_refl e, hu, le_refl u, rfl⟩
  | case3 u hneg h ih =>
    rw [windows_high cid e i u hneg h]
    intro q hq
    simp only [List.mem_cons] at hq
    rcases hq with rfl | hq
    · exact ⟨le_of_lt (by omega : e < u - i), (by omega : u - i ≤ u), le_refl u, rfl⟩
    · have := ih (by omega) q hq
      exact ⟨this.1, this.2.1, by omega, this.2.2.2⟩

/-- Windows are queried from most recent to least recent: any later window lies at or
below any earlier window's lower bound. -/
theorem windows_pairwise (cid : String) (e i u : Int) :
    (windows cid e i u).Pairwise
      (fun a b => b.publishedBefore ≤ a.publishedAfter) := by
  induction u using windows.induct cid e i with
  | case1 u h => rw [windows]; simp [h]
  | case2 u hneg h => rw [windows_low cid e i u hneg h]; simp
  | case3 u hneg h ih =>
    rw [windows_high cid e i u hneg h]
    rw [List.pairwise_cons]
    refine ⟨?_, ih⟩
    intro b hb
    have := windows_mem_bounds cid e i (u - i) (by omega) b hb
    simpa using this.2.2.1

/-- Every timestamp of `[earliest, latest]` is covered by some queried window: the
partition has no gaps. -/
theorem windows_cover (cid : String) (e i u : Int) (hi : 0 < i) (hu : e ≤ u) :
    ∀ t : Int, e ≤ t → t ≤ u →
      ∃ q ∈ windows cid e i u, q.publishedAfter ≤ t ∧ t ≤ q.publishedBefore := by
  induction u using windows.induct cid e i with
  | case1 u h => omega
  | case2 u hneg h =>
    intro t ht htu
    refine ⟨⟨cid, u, e⟩, ?_, ht, htu⟩
    rw [windows_low cid e i u hneg h]
    simp
  | case3 u hneg h ih =>
    intro t ht htu
    rw [windows_high cid e i u hneg h]
    by_cases hcut : u - i ≤ t
    · exact ⟨⟨cid, u, u - i⟩, by simp, hcut, htu⟩
    · obtain ⟨q, hq, hq1, hq2⟩ := ih (by omega) t ht (by omega)
      exact ⟨q, by simp [hq], hq1, hq2⟩

/-! Relation of the collector loop to the window partition. -/

/-- The queries issued by the collector loop are exactly the window partition,
whatever the API responds. -/
theorem loop_queries (cid : String) (e i : Int) (u : Int)
    (scripts : List (List ApiResponse)) :
    (get_channel_videos_loop cid e i u scripts).2.1 = windows cid e i u := by
  induction u, scripts using get_channel_videos_loop.induct cid e i with
  | case1 u s h => rw [get_channel_videos_loop, windows]; simp [h]
  | case2 u s h hlow =>
    rw [loop_low cid e i u s h hlow, windows_low cid e i u h hlow]
  | case3 u s h hlow ih =>
    rw [loop_high cid e i u s h hlow, windows_high cid e i u h hlow]
    simp [ih]

/-- Per-window reading of the collector's video list: window `k` of the partition
contributes the pagination result of the `k`-th script, in window order. -/
theorem loop_videos (cid : String) (e i : Int) (u : Int)
    (scripts : List (List ApiResponse)) :
    (get_channel_videos_loop cid e i u scripts).1 =
      ((List.range (windows cid e i u).length).map
        (fun k => (get_channel_videos_published_in_interval (scripts.getD k [])).1)).flatten := by
  induction u, scripts using get_channel_videos_loop.induct cid e i with
  | case1 u s h => rw [get_channel_videos_loop, windows]; simp [h]
  | case2 u s h hlow =>
    rw [loop_low cid e i u s h hlow, windows_low cid e i u h hlow]
    rcases s with _ | ⟨a, s⟩ <;> simp [List.getD, List.range_succ]
  | case3 u s h hlow ih =>
    rw [loop_high cid e i u s h hlow, windows_high cid e i u h hlow]
    simp only [List.length_cons, List.range_succ_eq_map, List.map_cons, List.map_map,
      List.flatten_cons]
    congr 1
    · rcases s with _ | ⟨a, s⟩ <;> simp [List.getD]
    · rw [ih]
      congr 1
      refine List.map_congr_left ?_
      intro k hk
      rcases s with _ | ⟨a, s⟩ <;> simp [List.getD]

/-- Replacing the script of one window by a script whose pagination yields the same
videos leaves the collector's video list unchanged: windows are processed
independently, in script order. -/
theorem loop_videos_replace (cid : String) (e i u : Int)
    (s₁ s₂ : List (List ApiResponse)) (x y : List ApiResponse)
    (hxy : (get_channel_videos_published_in_interval x).1 =
      (get_channel_videos_published_in_interval y).1) :
    (get_channel_videos_loop cid e i u (s₁ ++ x :: s₂)).1 =
      (get_channel_videos_loop cid e i u (s₁ ++ y :: s₂)).1 := by
  rw [loop_videos, loop_videos]
  congr 1
  refine List.map_congr_left ?_
  intro k hk
  by_cases hks : k = s₁.length
  · subst hks
    rw [List.getD_eq_getElem?_getD, List.getD_eq_getElem?_getD,
      List.getElem?_append_right (le_refl s₁.length),
      List.getElem?_append_right (le_refl s₁.length)]
    simpa using hxy
  · rcases Nat.lt_or_ge k s₁.length with hlt | hge
    · rw [List.getD_eq_getElem?_getD, List.getD_eq_getElem?_getD,
        List.getElem?_append_left hlt, List.getElem?_append_left hlt]
    · have hgt : s₁.length < k := lt_of_le_of_ne hge (Ne.symm hks)
      rw [List.getD_eq_getElem?_getD, List.getD_eq_getElem?_getD,
        List.getElem?_append_right hge, List.getElem?_append_right hge]
      obtain ⟨m, hm⟩ : ∃ m, k - s₁.length = m + 1 := ⟨k - s₁.length - 1, by omega⟩
      rw [hm]
      rfl

/-- Inversion of a successful channel-id lookup body: success requires a parsed
response, a strictly positive `totalResults` and a first item, whose id field is the
returned value; the diagnostic flag is set exactly on multiple matches. -/
theorem get_channel_id_body_ok_inv (r : LookupResponse) (idOpt : Option String)
    (diag : Bool) (h : get_channel_id_body r = .ok (idOpt, diag)) :
    r.parseOk = true ∧ r.items.head? = some idOpt ∧
      ∃ t, r.totalResults = some t ∧ 0 < t ∧ diag = decide (t > 1) := by
  by_cases hp : r.parseOk = false
  · simp [get_channel_id_body, hp] at h
  · have hp' : r.parseOk = true := by simpa using hp
    rcases htr : r.totalResults with _ | t
    · simp [get_channel_id_body, hp, htr] at h
    · by_cases h0 : t > 0
      · rcases hh : r.items.head? with _ | idOpt'
        · simp [get_channel_id_body, hp, htr, h0, hh] at h
        · simp [get_channel_id_body, hp, htr, h0, hh] at h
          refine ⟨hp', ?_, t, rfl, h0, h.2.symm⟩
          rw [h.1]
      · simp [get_channel_id_body, hp, htr, h0] at h

/-! Claim theorems. -/

/-- C1: for every pair of timestamps with `latest >= earliest` and every strictly
positive interval, the windows produced by the collector's partitioning loop exactly
cover `[earliest, latest]` with no gaps and no overlaps: at least one window is
queried, the first window's upper bound is `latest`, the final window's lower bound is
clamped to exactly `earliest`, each window's upper bound equals the previous window's
lower bound, every window lies inside `[earliest, latest]` with ordered bounds,
windows are generated from most-recent to least-recent, and every timestamp of
`[earliest, latest]` falls in some window. -/
theorem c1_partition_exactly_covers (apiKey channelId : String)
    (earliest latest timeInterval : Int) (scripts : List (List ApiResponse))
    (hrange : earliest ≤ latest) (hpos : 0 < timeInterval) :
    (get_channel_videos apiKey channelId earliest latest timeInterval scripts).queries ≠ []
    ∧ ((get_channel_videos apiKey channelId earliest latest timeInterval scripts).queries.head?.map
        (fun q => q.publishedBefore) = some latest)
    ∧ ((get_channel_videos apiKey channelId earliest latest timeInterval scripts).queries.getLast?.map
        (fun q => q.publishedAfter) = some earliest)
    ∧ List.Chain' (fun a b => b.publishedBefore = a.publishedAfter)
        (get_channel_videos apiKey channelId earliest latest timeInterval scripts).queries
    ∧ (∀ q ∈ (get_channel_videos apiKey channelId earliest latest timeInterval scripts).queries,
        earliest ≤ q.publishedAfter ∧ q.publishedAfter ≤ q.publishedBefore ∧
          q.publishedBefore ≤ latest)
    ∧ (get_channel_videos apiKey channelId earliest latest timeInterval scripts).queries.Pairwise
        (fun a b => b.publishedBefore ≤ a.publishedAfter)
    ∧ (∀ t : Int, earliest ≤ t → t ≤ latest →
        ∃ q ∈ (get_channel_videos apiKey channelId earliest latest timeInterval scripts).queries,
          q.publishedAfter ≤ t ∧ t ≤ q.publishedBefore) := by
  have hq : (get_channel_videos apiKey channelId earliest latest timeInterval scripts).queries
      = windows channelId earliest timeInterval latest := by
    rw [get_channel_videos, if_neg (by omega)]
    exact loop_queries channelId earliest timeInterval latest scripts
  rw [hq]
  refine ⟨windows_ne_nil channelId earliest timeInterval latest hpos,
    windows_head_before channelId earliest timeInterval latest hpos,
    windows_last_after channelId earliest timeInterval latest hpos,
    windows_chain channelId earliest timeInterval latest,
    ?_,
    windows_pairwise channelId earliest timeInterval latest,
    windows_cover channelId earliest timeInterval latest hpos hrange⟩
  intro q hqm
  have := windows_mem_bounds channelId earliest timeInterval latest hrange q hqm
  exact ⟨this.1, this.2.1, this.2.2.1⟩

/-- Witness for C1 at a concrete range: earliest 0, latest 10, interval 4. -/
theorem c1_partition_exactly_covers_witness :
    ((get_channel_videos "key" "chan" 0 10 4 []).queries ≠ []
      ∧ (get_channel_videos "key" "chan" 0 10 4 []).queries.getLast?.map
          (fun q => q.publishedAfter) = some 0) :=
  ⟨(c1_partition_exactly_covers "key" "chan" 0 10 4 [] (by decide) (by decide)).1,
    (c1_partition_exactly_covers "key" "chan" 0 10 4 [] (by decide) (by decide)).2.2.1⟩

/-- C2: for all inputs with `latest < earliest`, the collector raises the invalid-range
error before doing anything: the outcome is exactly the error message, with no videos,
zero window iterations and zero page requests. -/
theorem c2_invalid_range_no_requests (apiKey channelId : String)
    (earliest latest timeInterval : Int) (scripts : List (List ApiResponse))
    (h : latest < earliest) :
    get_channel_videos apiKey channelId earliest latest timeInterval scripts =
      { error := some "The date to start from cannot be before the date to go back to!"
        videos := [], queries := [], requests := 0 } := by
  rw [get_channel_videos, if_pos h]

/-- Witness for C2 at latest 0 < earliest 1. -/
theorem c2_invalid_range_no_requests_witness :
    get_channel_videos "key" "chan" 1 0 5 [[ApiResponse.page ["a"] none]] =
      { error := some "The date to start from cannot be before the date to go back to!"
        videos := [], queries := [], requests := 0 } :=
  c2_invalid_range_no_requests "key" "chan" 1 0 5 [[ApiResponse.page ["a"] none]]
    (by decide)

/-- C3: pagination of one window terminates with exactly one request per consumed
response (one per token-carrying page plus the final one); after a token-free
response it stops immediately and returns the accumulated list, never issuing another
request whatever would follow; and when token-carrying pages are full (50 items) the
request count is bounded by the retrieved results divided by the page size of 50. -/
theorem c3_pagination_terminates (script : List ApiResponse) :
    (get_channel_videos_published_in_interval script).2 = contPrefixLen script + 1
    ∧ (∀ pre post : List ApiResponse, ∀ items : List String,
        (∀ r ∈ pre, r.isCont = true) →
        get_channel_videos_published_in_interval
            (pre ++ ApiResponse.page items none :: post) =
          (itemsJoin pre ++ items, pre.length + 1))
    ∧ ((∀ r ∈ script, r.isCont = true → r.pageItems.length = 50) →
        50 * (get_channel_videos_published_in_interval script).2 ≤
          (get_channel_videos_published_in_interval script).1.length + 50) := by
  exact ⟨fetch_requests script,
    fun pre post items h => fetch_contRun_done pre post items h,
    fun h => fetch_requests_bounded script h⟩

/-- Witness for C3: a one-full-page-then-done script, a stop ignoring trailing
responses, and the page bound. -/
theorem c3_pagination_terminates_witness :
    ((get_channel_videos_published_in_interval
        [ApiResponse.page ["a"] (some "t"), ApiResponse.failure]).2 =
      contPrefixLen [ApiResponse.page ["a"] (some "t"), ApiResponse.failure] + 1)
    ∧ (get_channel_videos_published_in_interval
        ([ApiResponse.page ["a"] (some "t")] ++
          ApiResponse.page ["b"] none :: [ApiResponse.failure]) =
        (itemsJoin [ApiResponse.page ["a"] (some "t")] ++ ["b"],
          [ApiResponse.page ["a"] (some "t")].length + 1))
    ∧ (50 * (get_channel_videos_published_in_interval [ApiResponse.page ["b"] none]).2 ≤
        (get_channel_videos_published_in_interval [ApiResponse.page ["b"] none]).1.length
          + 50) :=
  ⟨(c3_pagination_terminates [ApiResponse.page ["a"] (some "t"), ApiResponse.failure]).1,
    (c3_pagination_terminates []).2.1 [ApiResponse.page ["a"] (some "t")]
      [ApiResponse.failure] ["b"] (by decide),
    (c3_pagination_terminates [ApiResponse.page ["b"] none]).2.2 (by decide)⟩

/-- C4: a transport or parse failure while paginating one window aborts that window
alone: the window's fetch returns exactly the ids accumulated before the failure, the
collector raises nothing, and the run is indistinguishable (same videos, same window
queries) from one where that window had ended normally after the same pages — all
subsequent windows are processed normally. -/
theorem c4_window_failure_contained (apiKey channelId : String)
    (earliest latest timeInterval : Int) (s₁ s₂ : List (List ApiResponse))
    (pre rest : List ApiResponse)
    (hpre : ∀ r ∈ pre, r.isCont = true) (hrange : earliest ≤ latest) :
    get_channel_videos_published_in_interval (pre ++ ApiResponse.failure :: rest) =
      (itemsJoin pre, pre.length + 1)
    ∧ (get_channel_videos apiKey channelId earliest latest timeInterval
        (s₁ ++ (pre ++ ApiResponse.failure :: rest) :: s₂)).error = none
    ∧ (get_channel_videos apiKey channelId earliest latest timeInterval
        (s₁ ++ (pre ++ ApiResponse.failure :: rest) :: s₂)).videos =
      (get_channel_videos apiKey channelId earliest latest timeInterval
        (s₁ ++ (pre ++ [ApiResponse.page [] none]) :: s₂)).videos
    ∧ (get_channel_videos apiKey channelId earliest latest timeInterval
        (s₁ ++ (pre ++ ApiResponse.failure :: rest) :: s₂)).queries =
      (get_channel_videos apiKey channelId earliest latest timeInterval
        (s₁ ++ (pre ++ [ApiResponse.page [] none]) :: s₂)).queries := by
  refine ⟨fetch_contRun_failure pre rest hpre, ?_, ?_, ?_⟩
  · rw [get_channel_videos, if_neg (by omega)]
  · rw [get_channel_videos, get_channel_videos, if_neg (by omega), if_neg (by omega)]
    refine loop_videos_replace channelId earliest timeInterval latest s₁ s₂ _ _ ?_
    rw [fetch_contRun_failure pre rest hpre, fetch_contRun_done pre [] [] hpre]
    simp
  · rw [get_channel_videos, get_channel_videos, if_neg (by omega), if_neg (by omega)]
    simp only [loop_queries]

/-- Witness for C4: second window fails on its second page after one full page. -/
theorem c4_window_failure_contained_witness :
    (get_channel_videos_published_in_interval
        ([ApiResponse.page ["a"] (some "t")] ++
          ApiResponse.failure :: [ApiResponse.page ["z"] none]) =
      (itemsJoin [ApiResponse.page ["a"] (some "t")],
        [ApiResponse.page ["a"] (some "t")].length + 1))
    ∧ (get_channel_videos "key" "chan" 0 10 4
        ([[ApiResponse.page ["p"] none]] ++
          ([ApiResponse.page ["a"] (some "t")] ++
            ApiResponse.failure :: [ApiResponse.page ["z"] none]) ::
          [[ApiResponse.page ["q"] none]])).videos =
      (get_channel_videos "key" "chan" 0 10 4
        ([[ApiResponse.page ["p"] none]] ++
          ([ApiResponse.page ["a"] (some "t")] ++ [ApiResponse.page [] none]) ::
          [[ApiResponse.page ["q"] none]])).videos :=
  ⟨(c4_window_failure_contained "key" "chan" 0 10 4 [[ApiResponse.page ["p"] none]]
      [[ApiResponse.page ["q"] none]] [ApiResponse.page ["a"] (some "t")]
      [ApiResponse.page ["z"] none] (by decide) (by decide)).1,
    (c4_window_failure_contained "key" "chan" 0 10 4 [[ApiResponse.page ["p"] none]]
      [[ApiResponse.page ["q"] none]] [ApiResponse.page ["a"] (some "t")]
      [ApiResponse.page ["z"] none] (by decide) (by decide)).2.2.1⟩

/-- C5: a channel lookup response reporting zero matching results makes resolution
raise the not-found error inside the resolver, so the resolver returns the sentinel,
and `main` exits with the fatal-error code 2 without ever invoking video collection. -/
theorem c5_zero_matches_fatal (r : LookupResponse) (apiKey : String)
    (earliest latest timeInterval : Int) (scripts : List (List ApiResponse))
    (hok : r.parseOk = true) (hzero : r.totalResults = some 0) :
    get_channel_id_body r = .error .notFound
    ∧ (get_channel_id r).1 = .sentinel
    ∧ main r apiKey earliest latest timeInterval scripts =
        { exitCode := 2, collectionInvoked := false, printed := [] } := by
  have hbody : get_channel_id_body r = .error .notFound := by
    simp [get_channel_id_body, hok, hzero]
  have hid : get_channel_id r = (.sentinel, false) := by
    rw [get_channel_id, hbody]
  exact ⟨hbody, by rw [hid], by simp [main, hid]⟩

/-- Witness for C5: a parsed response with `totalResults = 0`. -/
theorem c5_zero_matches_fatal_witness :
    get_channel_id_body ⟨true, some 0, []⟩ = .error .notFound
    ∧ main ⟨true, some 0, []⟩ "key" 0 10 4 [] =
        { exitCode := 2, collectionInvoked := false, printed := [] } :=
  ⟨(c5_zero_matches_fatal ⟨true, some 0, []⟩ "key" 0 10 4 [] rfl rfl).1,
    (c5_zero_matches_fatal ⟨true, some 0, []⟩ "key" 0 10 4 [] rfl rfl).2.2⟩

/-- C6: a channel lookup response reporting more than one matching result resolves
successfully to the first result's identifier, emitting the ambiguity diagnostic
rather than failing. -/
theorem c6_multiple_matches_first (r : LookupResponse) (t : Int) (idOpt : Option String)
    (hok : r.parseOk = true) (ht : r.totalResults = some t) (hmulti : 1 < t)
    (hhead : r.items.head? = some idOpt) :
    get_channel_id r = (.found idOpt, true) := by
  have h0 : t > 0 := by omega
  have hbody : get_channel_id_body r = .ok (idOpt, true) := by
    simp [get_channel_id_body, hok, ht, hhead, h0, hmulti]
  rw [get_channel_id, hbody]

/-- Witness for C6: two matches, the first with id `UC1`. -/
theorem c6_multiple_matches_first_witness :
    get_channel_id ⟨true, some 2, [some "UC1", some "UC2"]⟩ =
      (.found (some "UC1"), true) :=
  c6_multiple_matches_first ⟨true, some 2, [some "UC1", some "UC2"]⟩ 2 (some "UC1")
    rfl rfl (by decide) rfl

/-- C7: on the call with earliest 2020-01-01, latest 2021-06-01 and a 180-day
interval, exactly 3 windows are queried, with boundaries 2021-06-01 to 2020-12-03,
2020-12-03 to 2020-06-06 and 2020-06-06 to 2020-01-01, the last clamped to
earliest. -/
theorem c7_scenario_b (apiKey channelId : String) (scripts : List (List ApiResponse)) :
    (get_channel_videos apiKey channelId (daysFromCivil 2020 1 1)
        (daysFromCivil 2021 6 1) 180 scripts).queries =
      [⟨channelId, daysFromCivil 2021 6 1, daysFromCivil 2020 12 3⟩,
       ⟨channelId, daysFromCivil 2020 12 3, daysFromCivil 2020 6 6⟩,
       ⟨channelId, daysFromCivil 2020 6 6, daysFromCivil 2020 1 1⟩]
    ∧ (get_channel_videos apiKey channelId (daysFromCivil 2020 1 1)
        (daysFromCivil 2021 6 1) 180 scripts).queries.length = 3 := by
  have h1 : daysFromCivil 2021 6 1 - 180 = daysFromCivil 2020 12 3 := by decide
  have h2 : daysFromCivil 2020 12 3 - 180 = daysFromCivil 2020 6 6 := by decide
  have hqq : (get_channel_videos apiKey channelId (daysFromCivil 2020 1 1)
      (daysFromCivil 2021 6 1) 180 scripts).queries =
      [⟨channelId, daysFromCivil 2021 6 1, daysFromCivil 2020 12 3⟩,
       ⟨channelId, daysFromCivil 2020 12 3, daysFromCivil 2020 6 6⟩,
       ⟨channelId, daysFromCivil 2020 6 6, daysFromCivil 2020 1 1⟩] := by
    rw [get_channel_videos, if_neg (by decide)]
    show (get_channel_videos_loop channelId (daysFromCivil 2020 1 1) 180
      (daysFromCivil 2021 6 1) scripts).2.1 = _
    rw [loop_queries]
    rw [windows_high _ _ _ _ (by decide) (by decide), h1,
      windows_high _ _ _ _ (by decide) (by decide), h2,
      windows_low _ _ _ _ (by decide) (by decide)]
  exact ⟨hqq, by rw [hqq]; rfl⟩

/-- C8: when omitted, `latest` defaults to the current timestamp, `earliest` to the
fixed 2005-02-14 floor, and the interval to 52 weeks of days; a raw count supplied as
integer or string is interpreted as that number of days. -/
theorem c8_argument_defaults (apiKey channelId : String) (now : Int)
    (scripts : List (List ApiResponse)) :
    get_channel_videos_raw apiKey channelId now RawDate.none RawDate.none
        RawInterval.none scripts =
      some (get_channel_videos apiKey channelId defaultTimeToGoBackTo now (52 * 7)
        scripts)
    ∧ resolveDate RawDate.none now = now
    ∧ defaultTimeToGoBackTo = daysFromCivil 2005 2 14
    ∧ defaultInterval = 52 * 7
    ∧ (∀ n : Int, resolveInterval (RawInterval.int n) = some n)
    ∧ (∀ s : String, resolveInterval (RawInterval.str s) = s.toInt?) :=
  ⟨rfl, rfl, rfl, rfl, fun _ => rfl, fun _ => rfl⟩

/-- C9: collection is deterministic — two runs with the same api key, channel,
bounds, interval and identical API responses produce the same outcome, in particular
the same ordered video list. -/
theorem c9_deterministic (apiKey₁ apiKey₂ channelId₁ channelId₂ : String)
    (earliest₁ earliest₂ latest₁ latest₂ timeInterval₁ timeInterval₂ : Int)
    (scripts₁ scripts₂ : List (List ApiResponse))
    (hk : apiKey₁ = apiKey₂) (hc : channelId₁ = channelId₂)
    (he : earliest₁ = earliest₂) (hl : latest₁ = latest₂)
    (hi : timeInterval₁ = timeInterval₂) (hs : scripts₁ = scripts₂) :
    get_channel_videos apiKey₁ channelId₁ earliest₁ latest₁ timeInterval₁ scripts₁ =
      get_channel_videos apiKey₂ channelId₂ earliest₂ latest₂ timeInterval₂ scripts₂
    ∧ (get_channel_videos apiKey₁ channelId₁ earliest₁ latest₁ timeInterval₁
        scripts₁).videos =
      (get_channel_videos apiKey₂ channelId₂ earliest₂ latest₂ timeInterval₂
        scripts₂).videos := by
  subst hk hc he hl hi hs
  exact ⟨rfl, rfl⟩

/-- Witness for C9 at a concrete run. -/
theorem c9_deterministic_witness :
    get_channel_videos "key" "chan" 0 10 4 [[ApiResponse.page ["a"] none]] =
      get_channel_videos "key" "chan" 0 10 4 [[ApiResponse.page ["a"] none]] :=
  (c9_deterministic "key" "key" "chan" "chan" 0 0 10 10 4 4
    [[ApiResponse.page ["a"] none]] [[ApiResponse.page ["a"] none]]
    rfl rfl rfl rfl rfl rfl).1

/-- C10: the channel resolver never propagates an exception: it always returns either
the extracted first item's id field or the sentinel; the sentinel occurs exactly when
the lookup body raised (transport/parse failure, malformed counts, zero matches,
missing first item); a successful return carries the first item's id from a parsed
response with positive `totalResults`; and `main` converts the sentinel into the
fatal exit without invoking collection. -/
theorem c10_resolver_never_raises :
    (∀ r : LookupResponse, (get_channel_id r).1 = .sentinel ∨
      ∃ idOpt, (get_channel_id r).1 = .found idOpt)
    ∧ (∀ r : LookupResponse, (get_channel_id r).1 = .sentinel ↔
        ∃ err, get_channel_id_body r = .error err)
    ∧ (∀ (r : LookupResponse) (idOpt : Option String),
        (get_channel_id r).1 = .found idOpt →
          r.items.head? = some idOpt ∧ r.parseOk = true ∧
            ∃ t, r.totalResults = some t ∧ 0 < t)
    ∧ (∀ (r : LookupResponse) (apiKey : String)
        (earliest latest timeInterval : Int) (scripts : List (List ApiResponse)),
        (get_channel_id r).1 = .sentinel →
          main r apiKey earliest latest timeInterval scripts =
            { exitCode := 2, collectionInvoked := false, printed := [] }) := by
  refine ⟨?_, ?_, ?_, ?_⟩
  · intro r
    rcases h : get_channel_id_body r with err | ⟨idOpt, diag⟩
    · left; simp [get_channel_id, h]
    · right; exact ⟨idOpt, by simp [get_channel_id, h]⟩
  · intro r
    rcases h : get_channel_id_body r with err | ⟨idOpt, diag⟩
    · simp [get_channel_id, h]
    · simp [get_channel_id, h]
  · intro r idOpt hfound
    rcases h : get_channel_id_body r with err | ⟨idOpt', diag⟩
    · simp [get_channel_id, h] at hfound
    · simp [get_channel_id, h] at hfound
      obtain ⟨hp, hh, t, ht, h0, _⟩ := get_channel_id_body_ok_inv r idOpt' diag h
      exact ⟨hfound ▸ hh, hp, t, ht, h0⟩
  · intro r apiKey earliest latest timeInterval scripts hsent
    rcases hgr : get_channel_id r with ⟨fst, snd⟩
    rw [hgr] at hsent
    dsimp only at hsent
    subst hsent
    simp [main, hgr]

/-- Witness for C10: a failed lookup leads to the fatal exit; a successful lookup
returns the first item's id. -/
theorem c10_resolver_never_raises_witness :
    main ⟨false, some 1, []⟩ "key" 0 10 4 [] =
      { exitCode := 2, collectionInvoked := false, printed := [] }
    ∧ ((⟨true, some 1, [some "UC"]⟩ : LookupResponse).items.head? = some (some "UC")
        ∧ (⟨true, some 1, [some "UC"]⟩ : LookupResponse).parseOk = true
        ∧ ∃ t, (⟨true, some 1, [some "UC"]⟩ : LookupResponse).totalResults = some t
            ∧ 0 < t) :=
  ⟨c10_resolver_never_raises.2.2.2 ⟨false, some 1, []⟩ "key" 0 10 4 [] rfl,
    c10_resolver_never_raises.2.2.1 ⟨true, some 1, [some "UC"]⟩ (some "UC") rfl⟩

end YCVF
